import Mathlib

/-!
Verification of the solarMonitor power-sensor task (src/sensor.cpp).

The C++ source is shallowly embedded: machine integers are modelled as
Nat / Int with explicit reduction modulo two to the width where the code
narrows or can overflow.  The cast to a signed 16-bit return value and the
32-bit intermediates of the fixed-point pipeline are made explicit via
wrap16 and wrap32.  C++ integer division truncates toward zero and is
modelled by Int.tdiv.  Platform collaborators (readVcc, analogRead) are an
explicit environment, and functions that invoke them also return the list
of acquisition events they perform, so that "does not re-acquire" style
statements are expressible.
-/

namespace SolarMonitor

/-- Reinterpretation of an integer as a signed 16-bit value
(the effect of the C++ cast to int16_t, two-complement). -/
def wrap16 (z : Int) : Int :=
  if z % 65536 < 32768 then z % 65536 else z % 65536 - 65536

/-- Reinterpretation of an integer as a signed 32-bit value
(the effect of C++ int32_t arithmetic, two-complement wraparound). -/
def wrap32 (z : Int) : Int :=
  if z % 4294967296 < 2147483648 then z % 4294967296
  else z % 4294967296 - 4294967296

/-- The C++ cast of an unsigned stored sample to int32_t. -/
def int32ofNat (n : Nat) : Int := wrap32 (n : Int)

/-- Conversion of a uint32 quantity to the int16_t return type:
reduce modulo two to the sixteen and reinterpret as signed. -/
def int16ofNat (n : Nat) : Int :=
  if n % 65536 < 32768 then ((n % 65536 : Nat) : Int)
  else ((n % 65536 : Nat) : Int) - 65536

/-- Platform acquisition events performed by the sensor code
(readVcc and analogRead calls, src/sensor.cpp lines 64-68 and 144). -/
inductive PEvent where
  | readVcc : PEvent
  | analogRead : Nat → PEvent
deriving DecidableEq, Repr

/-- The platform collaborators (out of scope in the design): the
supply-voltage measurement routine and the analog-to-digital read
primitive, by channel index. -/
structure Env where
  readVcc : Nat
  analogRead : Nat → Nat

/-- State of one PSensor instance, fields as in the C++ class:
wiring and configuration fixed at construction, calibration offsets
(signed 16-bit), the mutable sampled state (raw channel samples, last
supply-voltage reading, sample timestamp, all written by run), and the
inherited TimedTask next-run timestamp (uint32). -/
structure PSensor where
  pinV : Nat
  pinI : Nat
  maxV : Nat
  mV_A : Nat
  r1 : Nat
  r2 : Nat
  readRate : Nat
  id : Char
  calI : Int
  calV : Int
  VpinVal : Nat
  IpinVal : Nat
  Vcc : Nat
  ts : Nat
  runTime : Nat
deriving DecidableEq, Repr

/-- The PSensor constructor (src/sensor.cpp lines 35-52): stores the
configuration, zeroes the raw samples and the timestamp, and initialises
the TimedTask next-run time with the construction-time clock value.  The
field Vcc is left uninitialised by the C++ constructor; the parameter
vcc0 stands for that indeterminate initial content (no computation reads
it before the first run). -/
def mkPSensor (pinV pinI maxV mV_A : Nat) (r1 r2 : Nat) (readRate : Nat)
    (id : Char) (calI calV : Int) (now : Nat) (vcc0 : Nat) : PSensor :=
  { pinV := pinV, pinI := pinI, maxV := maxV, mV_A := mV_A,
    r1 := r1, r2 := r2, readRate := readRate, id := id,
    calI := calI, calV := calV,
    VpinVal := 0, IpinVal := 0, Vcc := vcc0, ts := 0,
    runTime := now % 4294967296 }

/-- Modelled from the spec: TimedTask::incRunTime is not under src/ (only
its caller PSensor::run is).  The spec says the reschedule operation sets
nextRunTime = lastRunStart + intervalMillis, where lastRunStart is the
now value passed into the most recent run step, in uint32 millisecond
arithmetic. -/
def incRunTime (lastRunStart interval : Nat) : Nat :=
  (lastRunStart + interval) % 4294967296

/-- PSensor::run (src/sensor.cpp lines 60-77): store now as the sample
timestamp, acquire the supply voltage and both raw channel samples, then
reschedule by the read interval.  Returns the new state together with the
acquisition events performed. -/
def PSensor.run (s : PSensor) (env : Env) (now : Nat) : PSensor × List PEvent :=
  let tsNew := now % 4294967296
  let vccNew := env.readVcc
  let rv := env.analogRead s.pinV
  let ri := env.analogRead s.pinI
  ({ s with ts := tsNew, Vcc := vccNew, VpinVal := rv, IpinVal := ri,
            runTime := incRunTime tsNew s.readRate },
   [PEvent.readVcc, PEvent.analogRead s.pinV, PEvent.analogRead s.pinI])

/-- PSensor::current (src/sensor.cpp line 124):
(int16_t)((((int32_t)_IpinVal - 512 + _calI) * 625000) / (int32_t)(128 * _mV_A)).
The sum and the product are int32 intermediates (wrap32); the division is
C++ signed division, truncating toward zero (Int.tdiv); the result is
narrowed to int16_t (wrap16).  128 * _mV_A never exceeds int ranges. -/
def PSensor.current (s : PSensor) : Int :=
  wrap16 ((wrap32 ((wrap32 (int32ofNat s.IpinVal - 512 + s.calI)) * 625000)).tdiv
    (128 * (s.mV_A : Int)))

/-- PSensor::voltage (src/sensor.cpp lines 130-146): the body first
performs a fresh supply-voltage acquisition (uint32_t Vcc = readVcc();)
whose result is never used, then returns
(int16_t)(((uint32_t)_VpinVal * _maxV * 125) / 128) — uint32 arithmetic
narrowed to the int16_t return type.  The configured calibration offset
calV and the stored supply voltage are not read.  Returns the value
together with the acquisition events performed. -/
def PSensor.voltage (s : PSensor) (env : Env) : Int × List PEvent :=
  let _Vcc := env.readVcc
  (int16ofNat ((s.VpinVal * s.maxV * 125) % 4294967296 / 128),
   [PEvent.readVcc])

/-- Modelled from the spec: the helper power is not under src/ (only its
caller PSensor::lastReading is).  The spec says power_mW = mV * mA / 1000,
computed with a wide signed intermediate so the product does not
overflow; the division is C++ signed division, truncating toward zero. -/
def power (mV mA : Int) : Int := (mV * mA).tdiv 1000

/-- The output record filled by lastReading.  sensor.h is not under src/;
the field list follows the assignments in src/sensor.cpp lines 165-174
and the record description of the spec (identity, timestamp, raw samples,
derived millivolt, milliamp and milliwatt values). -/
structure sensor_data_struct where
  id : Char
  ts : Nat
  pinValI : Nat
  pinValV : Nat
  mV : Int
  mA : Int
  mW : Int
deriving DecidableEq, Repr

/-- PSensor::lastReading (src/sensor.cpp lines 160-180): fills the output
record from the stored state and the derived values and returns status 0.
The guard that would return 1 when _ts is 0, and the line that would reset
_ts, are both commented out in the source, so the status is always 0 and
the state is never written.  Returns (state after the call, status,
record). -/
def PSensor.lastReading (s : PSensor) (env : Env) :
    PSensor × Nat × sensor_data_struct :=
  let data : sensor_data_struct :=
    { id := s.id, ts := s.ts, pinValI := s.IpinVal, pinValV := s.VpinVal,
      mV := (s.voltage env).1, mA := s.current,
      mW := power (s.voltage env).1 s.current }
  (s, 0, data)

/-! Helper lemmas about the width reductions and truncating division. -/

/-- wrap16 is the identity on values already in the int16 range. -/
theorem wrap16_eq_self (z : Int) (h1 : -32768 ≤ z) (h2 : z < 32768) :
    wrap16 z = z := by
  unfold wrap16
  split <;> omega

/-- wrap32 is the identity on values already in the int32 range. -/
theorem wrap32_eq_self (z : Int) (h1 : -2147483648 ≤ z) (h2 : z < 2147483648) :
    wrap32 z = z := by
  unfold wrap32
  split <;> omega

/-- The int32 cast of an in-range stored sample is the plain value. -/
theorem int32ofNat_small (n : Nat) (h : n ≤ 1023) : int32ofNat n = (n : Int) := by
  unfold int32ofNat
  exact wrap32_eq_self _ (by omega) (by omega)

/-- Truncating division is monotone in the dividend for a positive divisor. -/
theorem tdiv_le_tdiv {a b d : Int} (hd : 0 < d) (h : a ≤ b) :
    a.tdiv d ≤ b.tdiv d := by
  have neg_form : ∀ x : Int, x.tdiv d = -((-x).tdiv d) := by
    intro x
    rw [Int.neg_tdiv, neg_neg]
  rcases le_or_lt 0 a with ha | ha
  · rw [Int.tdiv_eq_ediv ha hd.le, Int.tdiv_eq_ediv (le_trans ha h) hd.le]
    exact Int.ediv_le_ediv hd h
  · rcases le_or_lt 0 b with hb | hb
    · have h1 : a.tdiv d ≤ 0 := by
        rw [neg_form a]
        have : 0 ≤ (-a).tdiv d := Int.tdiv_nonneg (by omega) hd.le
        omega
      have h2 : 0 ≤ b.tdiv d := Int.tdiv_nonneg hb hd.le
      omega
    · rw [neg_form a, neg_form b]
      have hba : (-b).tdiv d ≤ (-a).tdiv d := by
        rw [Int.tdiv_eq_ediv (by omega) hd.le, Int.tdiv_eq_ediv (by omega) hd.le]
        exact Int.ediv_le_ediv hd (by omega)
      omega

/-- When the stored sample is in ADC range, the int32 intermediate
product does not overflow and the quotient fits the int16 return type,
current computes exactly the truncated fixed-point quotient
(raw - 512 + cal) * 625000 / (128 * mV_A). -/
theorem current_eq_tdiv (s : PSensor)
    (hr : s.IpinVal ≤ 1023)
    (hpl : -2147483648 ≤ ((s.IpinVal : Int) - 512 + s.calI) * 625000)
    (hpu : ((s.IpinVal : Int) - 512 + s.calI) * 625000 < 2147483648)
    (hql : -32768 ≤ (((s.IpinVal : Int) - 512 + s.calI) * 625000).tdiv
      (128 * (s.mV_A : Int)))
    (hqu : (((s.IpinVal : Int) - 512 + s.calI) * 625000).tdiv
      (128 * (s.mV_A : Int)) < 32768) :
    s.current = (((s.IpinVal : Int) - 512 + s.calI) * 625000).tdiv
      (128 * (s.mV_A : Int)) := by
  unfold PSensor.current
  rw [int32ofNat_small s.IpinVal hr,
      wrap32_eq_self ((s.IpinVal : Int) - 512 + s.calI) (by omega) (by omega),
      wrap32_eq_self _ hpl hpu]
  exact wrap16_eq_self _ hql hqu

/-! Concrete fixtures used by counterexamples and witnesses: environments
whose acquisition collaborators return fixed values, and sensor states
reached by running the task once in such an environment. -/

/-- Environment whose analog channels always read full scale (1023). -/
def env1023 : Env := { readVcc := 5000, analogRead := fun _ => 1023 }

/-- Environment whose analog channels always read 0. -/
def env0 : Env := { readVcc := 5000, analogRead := fun _ => 0 }

/-- Sensor with sensitivity 1 mV/A after one run reading full scale. -/
def sSens1 : PSensor :=
  ((mkPSensor 0 1 48 1 4700 4700 1000 'A' 0 0 0 0).run env1023 100).1

/-- Sensor with sensitivity 100 mV/A after one run reading 512. -/
def s512 : PSensor :=
  ((mkPSensor 0 1 48 100 4700 4700 1000 'A' 0 0 0 0).run
    { readVcc := 5000, analogRead := fun _ => 512 } 100).1

/-- Sensor with sensitivity 100 mV/A after one run reading 522. -/
def s522 : PSensor :=
  ((mkPSensor 0 1 48 100 4700 4700 1000 'A' 0 0 0 0).run
    { readVcc := 5000, analogRead := fun _ => 522 } 100).1

/-- Sensor with sensitivity 1 mV/A after one run reading 518. -/
def s518 : PSensor :=
  ((mkPSensor 0 1 48 1 4700 4700 1000 'A' 0 0 0 0).run
    { readVcc := 5000, analogRead := fun _ => 518 } 100).1

/-- Sensor with sensitivity 1 mV/A after one run reading 519. -/
def s519 : PSensor :=
  ((mkPSensor 0 1 48 1 4700 4700 1000 'A' 0 0 0 0).run
    { readVcc := 5000, analogRead := fun _ => 519 } 100).1

/-- Sensor with maximum divider voltage 48 after one run at full scale. -/
def sV48 : PSensor :=
  ((mkPSensor 0 1 48 100 4700 4700 1000 'A' 0 0 0 0).run env1023 100).1

/-- Freshly constructed sensor on which run has never been invoked. -/
def sFresh : PSensor := mkPSensor 0 1 48 100 4700 4700 1000 'A' 0 0 0 0

/-! Claim theorems. -/

/-- Claim C1: the spec says lastReading reports the distinct no-data
status 1 when no sample has ever been taken (timestamp still at the
initial sentinel 0).  The source comments that guard out
(src/sensor.cpp line 162), so the code returns status 0 on a freshly
constructed sensor whose timestamp is still 0, contradicting the no-data
contract stated in its own doc comment.  This theorem evaluates the code
at that failing input. -/
theorem claim1_fresh_sensor_status_is_zero :
    sFresh.ts = 0 ∧
    (sFresh.lastReading env0).2.1 = 0 ∧
    (sFresh.lastReading env0).2.1 ≠ 1 := by
  refine ⟨rfl, rfl, ?_⟩
  decide

/-- Claim C2, counterexample: with sensitivity 1 mV/A, raw sample 1023 and
calibration 0, the exact fixed-point quotient is 2495117 but current
returns 4749 (the quotient reduced to the int16 return type), so the
claim as universally stated is false. -/
theorem claim2_counterexample :
    sSens1.IpinVal = 1023 ∧ sSens1.calI = 0 ∧ sSens1.mV_A = 1 ∧
    (((sSens1.IpinVal : Int) - 512 + sSens1.calI) * 625000).tdiv
      (128 * (sSens1.mV_A : Int)) = 2495117 ∧
    sSens1.current = 4749 ∧
    sSens1.current ≠ (((sSens1.IpinVal : Int) - 512 + sSens1.calI) * 625000).tdiv
      (128 * (sSens1.mV_A : Int)) := by
  refine ⟨rfl, rfl, rfl, by decide, by decide, by decide⟩

/-- Claim C2, amended: for every stored raw current sample in the ADC
range and signed calibration offset such that the int32 intermediate
product does not overflow and the quotient fits the int16 return type,
current returns exactly (raw - 512 + cal) * 625000 / (128 * sensitivity)
in truncating integer arithmetic; in particular with sensitivity 100,
raw 512, cal 0 it returns 0 mA, and with raw 522 it returns 488 mA
(see the witness). -/
theorem claim2_current_fixed_point_formula (s : PSensor)
    (hr : s.IpinVal ≤ 1023)
    (hpl : -2147483648 ≤ ((s.IpinVal : Int) - 512 + s.calI) * 625000)
    (hpu : ((s.IpinVal : Int) - 512 + s.calI) * 625000 < 2147483648)
    (hql : -32768 ≤ (((s.IpinVal : Int) - 512 + s.calI) * 625000).tdiv
      (128 * (s.mV_A : Int)))
    (hqu : (((s.IpinVal : Int) - 512 + s.calI) * 625000).tdiv
      (128 * (s.mV_A : Int)) < 32768) :
    s.current = (((s.IpinVal : Int) - 512 + s.calI) * 625000).tdiv
      (128 * (s.mV_A : Int)) :=
  current_eq_tdiv s hr hpl hpu hql hqu

/-- Claim C2, witness: the formula theorem applied at sensitivity 100 with
raw sample 522 and calibration 0, where the result is 488 mA, and at raw
sample 512, where the result is 0 mA. -/
theorem claim2_witness :
    (s522.current = (((s522.IpinVal : Int) - 512 + s522.calI) * 625000).tdiv
      (128 * (s522.mV_A : Int)) ∧ s522.current = 488) ∧
    (s512.current = (((s512.IpinVal : Int) - 512 + s512.calI) * 625000).tdiv
      (128 * (s512.mV_A : Int)) ∧ s512.current = 0) :=
  ⟨⟨claim2_current_fixed_point_formula s522 (by decide) (by decide) (by decide)
      (by decide) (by decide), by decide⟩,
   ⟨claim2_current_fixed_point_formula s512 (by decide) (by decide) (by decide)
      (by decide) (by decide), by decide⟩⟩

/-- Claim C3, counterexample: with maximum divider voltage 48 and raw
sample 1023, the exact fixed-point quotient 1023 * 48 * 125 / 128 is
47953 but voltage returns -17583 (the quotient reduced to the int16
return type), so the claim as universally stated is false. -/
theorem claim3_counterexample :
    sV48.VpinVal = 1023 ∧ sV48.maxV = 48 ∧
    ((sV48.VpinVal * sV48.maxV * 125 / 128 : Nat) : Int) = 47953 ∧
    (sV48.voltage env1023).1 = -17583 ∧
    (sV48.voltage env1023).1 ≠ ((sV48.VpinVal * sV48.maxV * 125 / 128 : Nat) : Int) := by
  refine ⟨rfl, rfl, by decide, by decide, by decide⟩

/-- Claim C3, amended: for every stored raw voltage sample in the ADC
range and configured maximum divider voltage in the uint8 range such that
the fixed-point quotient raw * maxV * 125 / 128 fits the int16 return
type, voltage returns exactly that quotient in millivolts; in particular
it returns 0 mV when the stored raw sample is 0 (see the witness). -/
theorem claim3_voltage_fixed_point_formula (s : PSensor) (env : Env)
    (hr : s.VpinVal ≤ 1023) (hm : s.maxV ≤ 255)
    (hq : s.VpinVal * s.maxV * 125 / 128 < 32768) :
    (s.voltage env).1 = ((s.VpinVal * s.maxV * 125 / 128 : Nat) : Int) := by
  have hprod : s.VpinVal * s.maxV * 125 < 4294967296 := by
    have h1 : s.VpinVal * s.maxV * 125 ≤ 1023 * 255 * 125 :=
      Nat.mul_le_mul (Nat.mul_le_mul hr hm) le_rfl
    omega
  unfold PSensor.voltage int16ofNat
  rw [Nat.mod_eq_of_lt hprod]
  rw [Nat.mod_eq_of_lt (show s.VpinVal * s.maxV * 125 / 128 < 65536 by omega)]
  rw [if_pos hq]

/-- Claim C3, witness: the formula theorem applied to a freshly
constructed sensor whose stored raw voltage sample is 0, where the result
is 0 mV, and to the sensor after a run reading 512 with maximum divider
voltage 48, where the result is 512 * 48 * 125 / 128 = 24000 mV. -/
theorem claim3_witness :
    ((sFresh.voltage env0).1 = ((sFresh.VpinVal * sFresh.maxV * 125 / 128 : Nat) : Int) ∧
     (sFresh.voltage env0).1 = 0) ∧
    ((s512.voltage env0).1 = ((s512.VpinVal * s512.maxV * 125 / 128 : Nat) : Int) ∧
     (s512.voltage env0).1 = 24000) :=
  ⟨⟨claim3_voltage_fixed_point_formula sFresh env0 (by decide) (by decide) (by decide),
    by decide⟩,
   ⟨claim3_voltage_fixed_point_formula s512 env0 (by decide) (by decide) (by decide),
    by decide⟩⟩

/-- Sensor with read interval 100 ms constructed at time 100. -/
def sRate100 : PSensor := mkPSensor 0 1 48 100 4700 4700 100 'A' 0 0 100 0

/-- Claim C4, counterexample: with read interval 100 a run at time 100
schedules the next due time 200; a late run entered at time 205 (now
argument 205) reschedules to 205 + 100 = 305, not to the drift-free 300
the claim asserts, because the reschedule is relative to the now of the
current run step, so the claim as stated is false. -/
theorem claim4_counterexample :
    sRate100.readRate = 100 ∧
    ((sRate100.run env0 100).1).runTime = 200 ∧
    (((sRate100.run env0 100).1).run env0 205).1.runTime = 305 ∧
    (((sRate100.run env0 100).1).run env0 205).1.runTime ≠ 300 := by
  refine ⟨rfl, rfl, rfl, by decide⟩

/-- Claim C4, amended: the reschedule performed during a run entered with
now argument T sets the next due time to exactly T + I (read interval I,
uint32 arithmetic), independent of how much later the reschedule
executes; consequently a run entered late at T0 + I + 5 leaves the next
due time at T0 + 2I + 5, not at T0 + 2I. -/
theorem claim4_reschedule_relative_to_run_start (s : PSensor) (env : Env)
    (now : Nat) (h : now + s.readRate < 4294967296) :
    (s.run env now).1.runTime = now + s.readRate := by
  unfold PSensor.run incRunTime
  simp only []
  omega

/-- Claim C4, witness: the reschedule theorem applied to the sensor with
read interval 100 run at time 205, giving next due time 305. -/
theorem claim4_witness :
    (sRate100.run env0 205).1.runTime = 205 + sRate100.readRate ∧
    (sRate100.run env0 205).1.runTime = 305 :=
  ⟨claim4_reschedule_relative_to_run_start sRate100 env0 205 (by decide),
   by decide⟩

/-- Claim C5: the result of voltage does not depend on the configured
voltage calibration offset: two sensors whose state differs only in the
calV field produce the same voltage value (the offset is accepted at
construction but never applied). -/
theorem claim5_voltage_ignores_voltage_calibration (s : PSensor) (env : Env)
    (cv : Int) :
    (({ s with calV := cv } : PSensor).voltage env).1 = (s.voltage env).1 :=
  rfl

/-- Claim C6: after exactly one run at time now, with the platform
returning supply voltage v and channel samples rv and ri, lastReading
reports the success status 0 and fills the record with timestamp now,
raw voltage sample rv and raw current sample ri. -/
theorem claim6_run_then_lastReading_reports_sample (s : PSensor) (env : Env)
    (now : Nat) (h : now < 4294967296) :
    ((((s.run env now).1).lastReading env).2.1 = 0) ∧
    ((((s.run env now).1).lastReading env).2.2.ts = now) ∧
    ((((s.run env now).1).lastReading env).2.2.pinValV = env.analogRead s.pinV) ∧
    ((((s.run env now).1).lastReading env).2.2.pinValI = env.analogRead s.pinI) := by
  refine ⟨rfl, ?_, rfl, rfl⟩
  show now % 4294967296 = now
  omega

/-- Claim C6, witness: the theorem applied to the fresh sensor run at
time 100 in the full-scale environment, whose record carries timestamp
100 and raw samples 1023. -/
theorem claim6_witness :
    ((((sFresh.run env1023 100).1).lastReading env1023).2.1 = 0) ∧
    ((((sFresh.run env1023 100).1).lastReading env1023).2.2.ts = 100) ∧
    ((((sFresh.run env1023 100).1).lastReading env1023).2.2.pinValV =
      env1023.analogRead sFresh.pinV) ∧
    ((((sFresh.run env1023 100).1).lastReading env1023).2.2.pinValI =
      env1023.analogRead sFresh.pinI) :=
  claim6_run_then_lastReading_reports_sample sFresh env1023 100 (by decide)

/-- Claim C7: lastReading mutates no sensor state and is idempotent: the
state component it returns is the input state unchanged, and a second
call on that state returns the identical status and record. -/
theorem claim7_lastReading_pure_and_idempotent (s : PSensor) (env : Env) :
    ((s.lastReading env).1 = s) ∧
    ((((s.lastReading env).1).lastReading env).2 = (s.lastReading env).2) :=
  ⟨rfl, rfl⟩

/-- Claim C8, counterexample: with sensitivity 1 mV/A the sums 518 and
519 are ordered, yet current returns 29296 at raw sample 518 and -31357
at raw sample 519 (the larger quotient 34179 no longer fits the int16
return type), so monotonicity in (raw + cal) as universally stated is
false. -/
theorem claim8_counterexample :
    s518.mV_A = s519.mV_A ∧
    ((s518.IpinVal : Int) + s518.calI ≤ (s519.IpinVal : Int) + s519.calI) ∧
    s518.current = 29296 ∧ s519.current = -31357 ∧
    ¬ (s518.current ≤ s519.current) := by
  refine ⟨rfl, by decide, by decide, by decide, by decide⟩

/-- Claim C8, amended: for a fixed sensitivity and stored raw samples in
the ADC range, current is a deterministic function of the sum raw + cal;
and it is monotonically non-decreasing in that sum on inputs whose int32
intermediate products do not overflow and whose quotients fit the int16
return type. -/
theorem claim8_current_det_mono_in_sum (s1 s2 : PSensor)
    (hm : s1.mV_A = s2.mV_A)
    (hr1 : s1.IpinVal ≤ 1023) (hr2 : s2.IpinVal ≤ 1023) :
    (((s1.IpinVal : Int) + s1.calI = (s2.IpinVal : Int) + s2.calI) →
      s1.current = s2.current) ∧
    (1 ≤ s1.mV_A →
     (s1.IpinVal : Int) + s1.calI ≤ (s2.IpinVal : Int) + s2.calI →
     -2147483648 ≤ ((s1.IpinVal : Int) - 512 + s1.calI) * 625000 →
     ((s2.IpinVal : Int) - 512 + s2.calI) * 625000 < 2147483648 →
     -32768 ≤ (((s1.IpinVal : Int) - 512 + s1.calI) * 625000).tdiv
       (128 * (s1.mV_A : Int)) →
     (((s2.IpinVal : Int) - 512 + s2.calI) * 625000).tdiv
       (128 * (s2.mV_A : Int)) < 32768 →
     s1.current ≤ s2.current) := by
  constructor
  · intro hsum
    have hz : (s1.IpinVal : Int) - 512 + s1.calI
        = (s2.IpinVal : Int) - 512 + s2.calI := by omega
    unfold PSensor.current
    rw [int32ofNat_small s1.IpinVal hr1, int32ofNat_small s2.IpinVal hr2,
        hz, hm]
  · intro hmv hsum hp1 hp2 hq1 hq2
    have hmz : (s1.mV_A : Int) = (s2.mV_A : Int) := by rw [hm]
    rw [hmz] at hq1
    have hd : (0 : Int) < 128 * (s2.mV_A : Int) := by
      have h1 : 1 ≤ s2.mV_A := hm ▸ hmv
      omega
    have hzle : (s1.IpinVal : Int) - 512 + s1.calI
        ≤ (s2.IpinVal : Int) - 512 + s2.calI := by omega
    have hple : ((s1.IpinVal : Int) - 512 + s1.calI) * 625000
        ≤ ((s2.IpinVal : Int) - 512 + s2.calI) * 625000 :=
      mul_le_mul_of_nonneg_right hzle (by omega)
    have hqle : (((s1.IpinVal : Int) - 512 + s1.calI) * 625000).tdiv
        (128 * (s2.mV_A : Int))
        ≤ (((s2.IpinVal : Int) - 512 + s2.calI) * 625000).tdiv
        (128 * (s2.mV_A : Int)) := tdiv_le_tdiv hd hple
    have e1 : s1.current = (((s1.IpinVal : Int) - 512 + s1.calI) * 625000).tdiv
        (128 * (s1.mV_A : Int)) :=
      current_eq_tdiv s1 hr1 hp1 (by omega)
        (by rw [hmz]; exact hq1) (by rw [hmz]; omega)
    have e2 : s2.current = (((s2.IpinVal : Int) - 512 + s2.calI) * 625000).tdiv
        (128 * (s2.mV_A : Int)) :=
      current_eq_tdiv s2 hr2 (by omega) hp2 (by omega) hq2
    rw [e1, e2, hmz]
    exact hqle

/-- Claim C8, witness: the theorem applied to the sensitivity-100 sensors
with raw samples 512 and 522, whose sums 512 and 522 are ordered and whose
currents are 0 and 488. -/
theorem claim8_witness :
    (((s512.IpinVal : Int) + s512.calI = (s522.IpinVal : Int) + s522.calI) →
      s512.current = s522.current) ∧
    s512.current ≤ s522.current ∧
    s512.current = 0 ∧ s522.current = 488 :=
  ⟨(claim8_current_det_mono_in_sum s512 s522 rfl (by decide) (by decide)).1,
   (claim8_current_det_mono_in_sum s512 s522 rfl (by decide) (by decide)).2
     (by decide) (by decide) (by decide) (by decide) (by decide) (by decide),
   by decide, by decide⟩

/-- Claim C9, counterexample: the body of voltage performs a fresh
supply-voltage acquisition (the discarded readVcc call,
src/sensor.cpp line 144), so the list of acquisition events of a voltage
call is [readVcc], not empty, and the claim that the accessor performs no
new supply-voltage acquisition is false. -/
theorem claim9_counterexample :
    (sV48.voltage env1023).2 = [PEvent.readVcc] ∧
    PEvent.readVcc ∈ (sV48.voltage env1023).2 := by
  refine ⟨rfl, by decide⟩

/-- Claim C9, amended: voltage performs exactly one fresh supply-voltage
acquisition whose result is discarded; the value it returns is determined
solely by the stored raw voltage sample and the configured maximum
divider voltage, so it is independent of the fresh acquisition (the
environment may vary) and of every other state field, in particular of
the captured supply-voltage reading stored at the last run. -/
theorem claim9_voltage_value_state_determined (s1 s2 : PSensor)
    (env env2 : Env)
    (hv : s1.VpinVal = s2.VpinVal) (hmx : s1.maxV = s2.maxV) :
    ((s1.voltage env).1 = (s2.voltage env2).1) ∧
    ((s1.voltage env).2 = [PEvent.readVcc]) := by
  constructor
  · show int16ofNat ((s1.VpinVal * s1.maxV * 125) % 4294967296 / 128)
      = (s2.voltage env2).1
    rw [hv, hmx]
    rfl
  · rfl

/-- Sensor agreeing with sV48 on the raw voltage sample and the maximum
divider voltage only: the captured supply voltage, the timestamp, the raw
current sample and both calibration offsets all differ. -/
def sV48alt : PSensor :=
  { sV48 with Vcc := 0, ts := 999, IpinVal := 7, calI := 3, calV := -8 }

/-- Claim C9, witness: the theorem applied to sV48 and its variant with a
different captured supply voltage (and different timestamp, current
sample and calibration offsets) under different environments: the voltage
values coincide and the event trace of the call is the one readVcc
acquisition. -/
theorem claim9_witness :
    ((sV48.voltage env1023).1 = (sV48alt.voltage env0).1) ∧
    ((sV48.voltage env1023).2 = [PEvent.readVcc]) :=
  claim9_voltage_value_state_determined sV48 sV48alt env1023 env0 rfl rfl

/-- Claim C10: voltage computes the quotient raw * maxV * 125 / 128 in
32-bit unsigned arithmetic but returns a 16-bit signed value: for every
stored raw sample in the ADC range and configured maximum voltage in the
uint8 range, the returned value equals the exact quotient exactly when
the quotient is below 32768, and in every case it is the quotient reduced
modulo 2 to the 16 and reinterpreted as signed. -/
theorem claim10_voltage_int16_truncation (s : PSensor) (env : Env)
    (hr : s.VpinVal ≤ 1023) (hm : s.maxV ≤ 255) :
    (((s.voltage env).1 = ((s.VpinVal * s.maxV * 125 / 128 : Nat) : Int))
      ↔ s.VpinVal * s.maxV * 125 / 128 < 32768) ∧
    (s.voltage env).1 = int16ofNat (s.VpinVal * s.maxV * 125 / 128) := by
  have hprod : s.VpinVal * s.maxV * 125 < 4294967296 := by
    have h1 : s.VpinVal * s.maxV * 125 ≤ 1023 * 255 * 125 :=
      Nat.mul_le_mul (Nat.mul_le_mul hr hm) le_rfl
    omega
  have hval : (s.voltage env).1
      = int16ofNat (s.VpinVal * s.maxV * 125 % 4294967296 / 128) := rfl
  rw [hval, Nat.mod_eq_of_lt hprod]
  refine ⟨?_, rfl⟩
  unfold int16ofNat
  constructor
  · intro h2
    split at h2 <;> omega
  · intro h2
    have hqm : s.VpinVal * s.maxV * 125 / 128 % 65536
        = s.VpinVal * s.maxV * 125 / 128 := Nat.mod_eq_of_lt (by omega)
    rw [hqm, if_pos h2]

/-- Claim C10, witness: the theorem applied to the sensor with maximum
divider voltage 48 after a full-scale run, where the exact quotient 47953
exceeds 32767 and the returned value is -17583. -/
theorem claim10_witness :
    ((((sV48.voltage env1023).1 = ((sV48.VpinVal * sV48.maxV * 125 / 128 : Nat) : Int))
        ↔ sV48.VpinVal * sV48.maxV * 125 / 128 < 32768) ∧
      (sV48.voltage env1023).1 = int16ofNat (sV48.VpinVal * sV48.maxV * 125 / 128)) ∧
    (sV48.voltage env1023).1 = -17583 ∧
    ¬ (sV48.VpinVal * sV48.maxV * 125 / 128 < 32768) :=
  ⟨claim10_voltage_int16_truncation sV48 env1023 (by decide) (by decide),
   by decide, by decide⟩

end SolarMonitor
